import Mathlib

/-!
Verification of the sync-scheduler component of deepwiki-open
(`api/sync_scheduler.py`, with the clone-error construction from
`api/data_pipeline.py`).

Strings are embedded as `List Char` (named `Str`), timestamps as `Nat`
(seconds); the ISO-8601 parsing that never fails on values the system
itself writes is modelled by storing the numeric timestamps directly.
Durations expressed in minutes in the source (`timedelta(minutes=...)`)
are converted to seconds with a factor of 60.
-/

/-- Strings of the embedded program, as lists of characters so that
substring search and replacement can be reasoned about directly. -/
abbrev Str := List Char

/-- Coercion from Lean string literals to the embedded string type. -/
def str (s : String) : Str := s.data

/-- Mirror of `SyncStatus` (`api/sync_scheduler.py`). -/
inductive SyncStatus where
  | pending
  | in_progress
  | completed
  | failed
  | disabled
deriving DecidableEq, Repr

/-- Mirror of `SyncHistoryEntry` (`api/sync_scheduler.py`). -/
structure SyncHistoryEntry where
  timestamp : Nat
  status : Str
  commit_hash : Option Str := none
  document_count : Option Nat := none
  embedding_count : Option Nat := none
  duration_seconds : Option Nat := none
  error_message : Option Str := none
  triggered_by : Str := str "scheduler"
deriving DecidableEq, Repr

/-- Mirror of `SyncMetadata` (`api/sync_scheduler.py`). -/
structure SyncMetadata where
  repo_url : Str
  owner : Str
  repo : Str
  repo_type : Str
  last_synced : Option Nat := none
  last_commit_hash : Option Str := none
  sync_status : SyncStatus := .pending
  sync_interval_minutes : Nat := 60
  document_count : Nat := 0
  embedding_count : Nat := 0
  error_message : Option Str := none
  next_sync : Option Nat := none
  enabled : Bool := true
  created_at : Option Nat := none
  updated_at : Option Nat := none
  access_token : Option Str := none
  retry_count : Nat := 0
  last_retry : Option Nat := none
  sync_history : List SyncHistoryEntry := []
  total_syncs : Nat := 0
  successful_syncs : Nat := 0
  failed_syncs : Nat := 0
deriving DecidableEq, Repr

/-- Mirror of `get_sync_config` (`api/sync_scheduler.py`): the values read
from the environment, with the documented defaults. -/
structure SyncConfig where
  enabled : Bool := true
  check_interval_seconds : Nat := 60
  default_interval_minutes : Nat := 60
  max_retries : Nat := 3
  auto_register : Bool := true
  retry_base_delay_seconds : Nat := 30
deriving DecidableEq, Repr

/-- Outward view of a record: every field of `SyncMetadata` except
`access_token`.  Mirror of the dictionary produced by
`SyncMetadata.to_dict`, which pops the `access_token` key. -/
structure SyncMetadataView where
  repo_url : Str
  owner : Str
  repo : Str
  repo_type : Str
  last_synced : Option Nat
  last_commit_hash : Option Str
  sync_status : SyncStatus
  sync_interval_minutes : Nat
  document_count : Nat
  embedding_count : Nat
  error_message : Option Str
  next_sync : Option Nat
  enabled : Bool
  created_at : Option Nat
  updated_at : Option Nat
  retry_count : Nat
  last_retry : Option Nat
  sync_history : List SyncHistoryEntry
  total_syncs : Nat
  successful_syncs : Nat
  failed_syncs : Nat
deriving DecidableEq, Repr

/-- Mirror of `SyncMetadata.to_dict` (`api/sync_scheduler.py`): serialize
every field and drop `access_token`. -/
def SyncMetadata.to_dict (m : SyncMetadata) : SyncMetadataView :=
  { repo_url := m.repo_url
    owner := m.owner
    repo := m.repo
    repo_type := m.repo_type
    last_synced := m.last_synced
    last_commit_hash := m.last_commit_hash
    sync_status := m.sync_status
    sync_interval_minutes := m.sync_interval_minutes
    document_count := m.document_count
    embedding_count := m.embedding_count
    error_message := m.error_message
    next_sync := m.next_sync
    enabled := m.enabled
    created_at := m.created_at
    updated_at := m.updated_at
    retry_count := m.retry_count
    last_retry := m.last_retry
    sync_history := m.sync_history
    total_syncs := m.total_syncs
    successful_syncs := m.successful_syncs
    failed_syncs := m.failed_syncs }

/-- Mirror of `SyncMetadata.add_history_entry`: insert at the front and
keep only the most recent `max_entries` entries. -/
def SyncMetadata.add_history_entry (h : List SyncHistoryEntry)
    (e : SyncHistoryEntry) (max_entries : Nat := 50) : List SyncHistoryEntry :=
  List.take max_entries (e :: h)

/-- Mirror of the per-record test performed inside
`SyncMetadataStore.get_projects_needing_sync`: the body of the loop that
decides whether one cached record is appended to the result list. -/
def needs_sync (cfg : SyncConfig) (now : Nat) (m : SyncMetadata) : Bool :=
  if !m.enabled then false
  else if m.sync_status = .in_progress then false
  else
    -- retry backoff gate for failed syncs
    let backoff_ok : Bool :=
      if m.sync_status = .failed ∧ 0 < m.retry_count then
        if cfg.max_retries ≤ m.retry_count then false
        else
          match m.last_retry with
          | some last_retry =>
              decide (last_retry + cfg.retry_base_delay_seconds * 2 ^ m.retry_count ≤ now)
          | none => true
      else true
    if !backoff_ok then false
    else
      match m.next_sync with
      | some next_sync_time => decide (next_sync_time ≤ now)
      | none => true

/-- Mirror of `SyncMetadataStore.get_projects_needing_sync`: filter the
cached records by the per-record test, preserving order. -/
def get_projects_needing_sync (cfg : SyncConfig) (now : Nat)
    (store : List SyncMetadata) : List SyncMetadata :=
  store.filter (needs_sync cfg now)

/-! ### Substring search and replacement (Python `in` and `str.replace`) -/

/-- Whether `pat` is an initial segment of `s` (Python slice comparison as
used by `str.replace` scanning). -/
def leadsWith : Str → Str → Bool
  | [], _ => true
  | _ :: _, [] => false
  | a :: asx, b :: bs => a = b && leadsWith asx bs

/-- Whether `pat` occurs somewhere inside `s` (Python substring test
`pat in s`). -/
def occursIn (pat : Str) : Str → Bool
  | [] => pat.isEmpty
  | c :: cs => leadsWith pat (c :: cs) || occursIn pat cs

/-- Worker for `replaceAll`, structurally recursive on a fuel bound so
that the kernel can evaluate it; any fuel of at least the length of the
scanned string gives the same answer (`replaceAllGo_fuel`). -/
def replaceAllGo (pat rep : Str) : Nat → Str → Str
  | _, [] => []
  | 0, s => s
  | fuel + 1, c :: cs =>
      if leadsWith pat (c :: cs) = true ∧ pat ≠ [] then
        rep ++ replaceAllGo pat rep fuel (List.drop (pat.length - 1) cs)
      else
        c :: replaceAllGo pat rep fuel cs

/-- Left-to-right non-overlapping replacement of every occurrence of a
nonempty `pat` by `rep` (Python `s.replace(pat, rep)` for nonempty
patterns).  The recurrence it satisfies is `replaceAll_nil` and
`replaceAll_cons` below. -/
def replaceAll (pat rep : Str) (s : Str) : Str :=
  replaceAllGo pat rep s.length s

/-! ### Clone-error construction (`api/data_pipeline.py`, `download_repo`) -/

/-- Fixed redaction marker used by `download_repo`
(`api/data_pipeline.py`): `"***TOKEN***"`. -/
def TOKEN_MARKER : Str := str "***TOKEN***"

/-- Mirror of the sanitization in `download_repo`'s
`CalledProcessError` handler: `if access_token and access_token in
error_msg: error_msg = error_msg.replace(access_token, "***TOKEN***")`. -/
def sanitize_error (access_token : Option Str) (error_msg : Str) : Str :=
  match access_token with
  | none => error_msg
  | some tok =>
      if tok ≠ [] ∧ occursIn tok error_msg = true then
        replaceAll tok TOKEN_MARKER error_msg
      else error_msg

/-- How the clone attempt inside the sync run can end: success, a git
subprocess failure carrying the raw stderr text, or any other exception
already carrying its final message. -/
inductive CloneOutcome where
  | ok
  | gitError (stderr : Str)
  | otherError (msg : Str)
deriving DecidableEq, Repr

/-- Message of the `ValueError` raised by `download_repo` on a failed
clone: the sanitized stderr behind the fixed prose. -/
def download_repo_error (access_token : Option Str) : CloneOutcome → Option Str
  | .ok => none
  | .gitError stderr =>
      some (str "Error during cloning: " ++ sanitize_error access_token stderr)
  | .otherError msg => some msg

/-! ### Sync engine (`api/sync_scheduler.py`, `IndexSyncManager`) -/

/-- Responses of the external git/pipeline world consumed by one
`sync_project` run: one value per subprocess or pipeline call the run can
make. -/
structure GitEnv where
  repo_exists : Bool
  remote_commit : Option Str
  local_commit : Option Str
  pull_ok : Bool
  clone_outcome : CloneOutcome
  documents : Nat
  pipeline_result : Except Str Nat
deriving Repr

/-- Mirror of the dictionary returned by
`IndexSyncManager.check_for_updates`. -/
structure UpdateInfo where
  has_updates : Bool
  remote_commit : Option Str
  local_commit : Option Str
deriving DecidableEq, Repr

/-- Mirror of `IndexSyncManager.check_for_updates`: absent checkout means
updates; unreachable remote means no updates; otherwise compare the
remote head with the local head and with the recorded commit. -/
def check_for_updates (env : GitEnv) (m : SyncMetadata) : UpdateInfo :=
  if env.repo_exists = false then
    { has_updates := true, remote_commit := none, local_commit := none }
  else
    match env.remote_commit with
    | none =>
        { has_updates := false, remote_commit := none,
          local_commit := env.local_commit }
    | some rc =>
        { has_updates :=
            decide (some rc ≠ env.local_commit) || decide (some rc ≠ m.last_commit_hash),
          remote_commit := some rc,
          local_commit := env.local_commit }

/-- Result dictionary of `IndexSyncManager.sync_project`, as the three
shapes the source returns. -/
inductive SyncResult where
  | skipped (reason : Str)
  | completed (document_count embedding_count : Nat)
      (commit_hash : Option Str) (duration_seconds : Nat)
  | failed (error : Str) (retry_count max_retries : Nat)
deriving DecidableEq, Repr

/-- Truth of the `success` key of the result dictionary. -/
def SyncResult.success : SyncResult → Bool
  | .failed _ _ _ => false
  | _ => true

/-- Mirror of the `except` block of `IndexSyncManager.sync_project`: the
failure terminal write applied to the in-progress record. -/
def failure_terminal (cfg : SyncConfig) (now : Nat) (reason : Str)
    (duration : Nat) (triggered_by : Str) (m : SyncMetadata) : SyncMetadata :=
  let rc := m.retry_count + 1
  { m with
    sync_status := .failed
    error_message := some reason
    retry_count := rc
    last_retry := some now
    total_syncs := m.total_syncs + 1
    failed_syncs := m.failed_syncs + 1
    next_sync :=
      some (if rc < cfg.max_retries then
              now + cfg.retry_base_delay_seconds * 2 ^ rc
            else
              now + 60 * m.sync_interval_minutes)
    sync_history :=
      SyncMetadata.add_history_entry m.sync_history
        { timestamp := now
          status := str "failed"
          error_message := some reason
          duration_seconds := some duration
          triggered_by := triggered_by } }

/-- Mirror of `IndexSyncManager.sync_project`.  `start_time` is the clock
at entry, `now` the clock at the terminal write; the external calls are
answered by `env`.  Returns the record as saved by the terminal write
together with the result dictionary. -/
def sync_project (env : GitEnv) (cfg : SyncConfig) (start_time now : Nat)
    (m : SyncMetadata) (force : Bool) (triggered_by : Str) :
    SyncMetadata × SyncResult :=
  let duration := now - start_time
  -- entry write: publish in_progress, clear the error message
  let m1 : SyncMetadata := { m with sync_status := .in_progress, error_message := none }
  let update_info := check_for_updates env m1
  if force = false ∧ update_info.has_updates = false then
    -- short-circuit: no updates detected
    let m2 : SyncMetadata :=
      { m1 with
        sync_status := .completed
        next_sync := some (now + 60 * m.sync_interval_minutes)
        retry_count := 0 }
    (m2, .skipped (str "No updates detected"))
  else
    -- pull the latest changes, or clone when the checkout is absent
    let pull_clone_error : Option Str :=
      if env.repo_exists then
        if env.pull_ok then none else some (str "Failed to pull latest changes")
      else
        download_repo_error m.access_token env.clone_outcome
    match pull_clone_error with
    | some reason =>
        (failure_terminal cfg now reason duration triggered_by m1,
         .failed reason (m.retry_count + 1) cfg.max_retries)
    | none =>
        if env.documents = 0 then
          let reason := str "No documents found in repository"
          (failure_terminal cfg now reason duration triggered_by m1,
           .failed reason (m.retry_count + 1) cfg.max_retries)
        else
          match env.pipeline_result with
          | .error e =>
              (failure_terminal cfg now e duration triggered_by m1,
               .failed e (m.retry_count + 1) cfg.max_retries)
          | .ok embedding_count =>
              let new_commit : Option Str :=
                match update_info.remote_commit with
                | some c => some c
                | none => env.local_commit
              let m2 : SyncMetadata :=
                { m1 with
                  last_synced := some now
                  last_commit_hash := new_commit
                  sync_status := .completed
                  document_count := env.documents
                  embedding_count := embedding_count
                  error_message := none
                  next_sync := some (now + 60 * m.sync_interval_minutes)
                  retry_count := 0
                  total_syncs := m.total_syncs + 1
                  successful_syncs := m.successful_syncs + 1
                  sync_history :=
                    SyncMetadata.add_history_entry m.sync_history
                      { timestamp := now
                        status := str "completed"
                        commit_hash := new_commit
                        document_count := some env.documents
                        embedding_count := some embedding_count
                        duration_seconds := some duration
                        triggered_by := triggered_by } }
              (m2, .completed env.documents embedding_count new_commit duration)

/-! ### Registry operations (`api/sync_scheduler.py`, `SyncScheduler`) -/

/-- Mirror of `SyncScheduler.add_project`: upsert one record.  `existing`
is the store lookup result for the project key; the default interval
comes from the scheduler configuration. -/
def add_project (default_sync_interval : Nat) (existing : Option SyncMetadata)
    (repo_url owner repo repo_type : Str) (sync_interval_minutes : Option Nat)
    (access_token : Option Str) (enabled : Bool) : SyncMetadata :=
  let interval := sync_interval_minutes.getD default_sync_interval
  match existing with
  | some ex =>
      { ex with
        repo_url := repo_url
        sync_interval_minutes := interval
        enabled := enabled
        access_token :=
          -- Python truthiness: `if access_token:` skips None and ""
          match access_token with
          | some t => if t = [] then ex.access_token else some t
          | none => ex.access_token }
  | none =>
      { repo_url := repo_url
        owner := owner
        repo := repo
        repo_type := repo_type
        sync_interval_minutes := interval
        access_token := access_token
        enabled := enabled
        sync_status := .pending }

/-- Mirror of `SyncScheduler.update_project_settings` on a found record:
optionally set the interval, optionally set the enabled flag (resetting
`retry_count` on re-enable), then recompute `next_sync` from
`last_synced` when the record is enabled and `last_synced` is set. -/
def update_project_settings (m : SyncMetadata)
    (sync_interval_minutes : Option Nat) (enabled : Option Bool) : SyncMetadata :=
  let m1 :=
    match sync_interval_minutes with
    | some i => { m with sync_interval_minutes := i }
    | none => m
  let m2 :=
    match enabled with
    | some b =>
        let m' := { m1 with enabled := b }
        if b then { m' with retry_count := 0 } else m'
    | none => m1
  match m2.last_synced with
  | some last_sync =>
      if m2.enabled then
        { m2 with next_sync := some (last_sync + 60 * m2.sync_interval_minutes) }
      else m2
  | none => m2

/-- Mirror of `SyncScheduler.reset_project_retries` on a found record:
clear the retry fields and, when failed, move back to pending with an
immediate `next_sync`. -/
def reset_project_retries (now : Nat) (m : SyncMetadata) : SyncMetadata :=
  let m1 := { m with retry_count := 0, last_retry := none }
  if m1.sync_status = .failed then
    { m1 with sync_status := .pending, next_sync := some now }
  else m1

/-! ### Scheduler startup (`api/sync_scheduler.py`, `SyncScheduler.start`) -/

/-- Project parsed from a wiki-cache filename by
`SyncScheduler._auto_register_projects`. -/
structure DiscoveredProject where
  repo_url : Str
  owner : Str
  repo : Str
  repo_type : Str
deriving DecidableEq, Repr

/-- Store lookup by project key, mirror of `SyncMetadataStore.get` keyed
on `(repo_type, owner, repo)`. -/
def find_project (store : List SyncMetadata) (owner repo repo_type : Str) :
    Option SyncMetadata :=
  store.find? (fun m => m.owner = owner ∧ m.repo = repo ∧ m.repo_type = repo_type)

/-- Mirror of `SyncScheduler.get_all_projects`: the outward view of every
record. -/
def get_all_projects (store : List SyncMetadata) : List SyncMetadataView :=
  store.map SyncMetadata.to_dict

/-- Mirror of `SyncScheduler.get_project_status`: the outward view of one
record looked up by project key. -/
def get_project_status (store : List SyncMetadata) (owner repo repo_type : Str) :
    Option SyncMetadataView :=
  (find_project store owner repo repo_type).map SyncMetadata.to_dict

/-- Mirror of the effect of `SyncScheduler.start` on the record store:
when auto-registration is on, each discovered project whose key is
unknown is added with default settings (`enabled=true`, no token); no
existing record is touched, and no other store write happens before the
first tick. -/
def scheduler_start (cfg : SyncConfig) (store : List SyncMetadata)
    (discovered : List DiscoveredProject) : List SyncMetadata :=
  if cfg.auto_register then
    discovered.foldl
      (fun st d =>
        match find_project st d.owner d.repo d.repo_type with
        | some _ => st
        | none =>
            st ++ [add_project cfg.default_interval_minutes none
                    d.repo_url d.owner d.repo d.repo_type none none true])
      store
  else store

/-! ### State/retry coherence (spec invariant 2) -/

/-- State/retry coherence: completed records carry no retry count and no
error; failed records carry at least one retry and a last-retry time. -/
def coherent (m : SyncMetadata) : Prop :=
  (m.sync_status = .completed → m.retry_count = 0 ∧ m.error_message = none) ∧
  (m.sync_status = .failed → 1 ≤ m.retry_count ∧ m.last_retry ≠ none)

instance (m : SyncMetadata) : Decidable (coherent m) := by
  unfold coherent; infer_instance

/-! ### Concrete fixtures used by the witnesses and counterexamples -/

/-- Freshly registered project record. -/
def sampleRecord : SyncMetadata :=
  { repo_url := str "https://github.com/alice/repo", owner := str "alice",
    repo := str "repo", repo_type := str "github" }

/-- Record stuck in `in_progress`, as a crash would leave it. -/
def crashResidueRecord : SyncMetadata :=
  { sampleRecord with sync_status := .in_progress }

/-- Coherent failed record: one retry recorded. -/
def failedRecord : SyncMetadata :=
  { sampleRecord with
    sync_status := .failed, retry_count := 1, last_retry := some 5,
    error_message := some (str "boom"), failed_syncs := 1, total_syncs := 1 }

/-- Record that was never synced but carries a scheduled `next_sync`. -/
def neverSyncedRecord : SyncMetadata :=
  { sampleRecord with last_synced := none, next_sync := some 100, enabled := false }

/-- Record already indexed at commit `h1`, with a stale retry count. -/
def upToDateRecord : SyncMetadata :=
  { sampleRecord with
    last_commit_hash := some (str "h1")
    retry_count := 2
    last_synced := some 3 }

/-- Record holding the access token `sec99`. -/
def secTokenRecord : SyncMetadata :=
  { sampleRecord with access_token := some (str "sec99") }

/-- Record holding the access token `TOKEN`, which overlaps the redaction
marker. -/
def markerTokenRecord : SyncMetadata :=
  { sampleRecord with access_token := some (str "TOKEN") }

/-- Environment answering a run that finds no updates. -/
def envNoUpdates : GitEnv :=
  { repo_exists := true, remote_commit := some (str "h1"),
    local_commit := some (str "h1"), pull_ok := true, clone_outcome := .ok,
    documents := 3, pipeline_result := .ok 5 }

/-- Environment answering a run whose `git pull` fails. -/
def envPullFails : GitEnv :=
  { repo_exists := true, remote_commit := some (str "h2"),
    local_commit := some (str "h1"), pull_ok := false, clone_outcome := .ok,
    documents := 3, pipeline_result := .ok 5 }

/-- Environment answering a run whose clone fails with a git error whose
stderr text contains the access token `sec99`. -/
def envCloneLeaks : GitEnv :=
  { repo_exists := false, remote_commit := none, local_commit := none,
    pull_ok := true, clone_outcome := .gitError (str "fatal: sec99 rejected"),
    documents := 3, pipeline_result := .ok 5 }

/-- Environment answering a run whose clone fails with a git error whose
stderr text contains the access token `TOKEN` (a token that overlaps the
redaction marker). -/
def envCloneLeaksMarker : GitEnv :=
  { repo_exists := false, remote_commit := none, local_commit := none,
    pull_ok := true, clone_outcome := .gitError (str "fatal: TOKEN rejected"),
    documents := 3, pipeline_result := .ok 5 }

/-! ### Lemmas about substring search after replacement -/

theorem replaceAllGo_fuel (pat rep : Str) :
    ∀ (f₁ : Nat) (s : Str) (f₂ : Nat), s.length ≤ f₁ → s.length ≤ f₂ →
      replaceAllGo pat rep f₁ s = replaceAllGo pat rep f₂ s := by
  intro f₁
  induction f₁ with
  | zero =>
      intro s f₂ h₁ _
      have hs : s = [] := List.eq_nil_of_length_eq_zero (Nat.le_zero.mp h₁)
      subst hs
      cases f₂ <;> rfl
  | succ f ih =>
      intro s f₂ h₁ h₂
      cases s with
      | nil => cases f₂ <;> rfl
      | cons c cs =>
          cases f₂ with
          | zero => simp at h₂
          | succ f' =>
              simp only [replaceAllGo]
              by_cases hcond : leadsWith pat (c :: cs) = true ∧ pat ≠ []
              · rw [if_pos hcond, if_pos hcond]
                have hlen : (List.drop (pat.length - 1) cs).length ≤ f := by
                  have := List.length_drop (pat.length - 1) cs
                  simp only [List.length_cons] at h₁
                  omega
                have hlen' : (List.drop (pat.length - 1) cs).length ≤ f' := by
                  have := List.length_drop (pat.length - 1) cs
                  simp only [List.length_cons] at h₂
                  omega
                rw [ih _ f' hlen hlen']
              · rw [if_neg hcond, if_neg hcond]
                have hlen : cs.length ≤ f := by
                  simp only [List.length_cons] at h₁; omega
                have hlen' : cs.length ≤ f' := by
                  simp only [List.length_cons] at h₂; omega
                rw [ih _ f' hlen hlen']

theorem replaceAll_nil (pat rep : Str) : replaceAll pat rep [] = [] := rfl

theorem replaceAll_cons (pat rep : Str) (c : Char) (cs : Str) :
    replaceAll pat rep (c :: cs) =
      if leadsWith pat (c :: cs) = true ∧ pat ≠ [] then
        rep ++ replaceAll pat rep (List.drop (pat.length - 1) cs)
      else
        c :: replaceAll pat rep cs := by
  show replaceAllGo pat rep (c :: cs).length (c :: cs) = _
  simp only [List.length_cons, replaceAllGo]
  by_cases hcond : leadsWith pat (c :: cs) = true ∧ pat ≠ []
  · rw [if_pos hcond, if_pos hcond]
    unfold replaceAll
    rw [replaceAllGo_fuel pat rep cs.length _ (List.drop (pat.length - 1) cs).length]
    · have := List.length_drop (pat.length - 1) cs
      omega
    · exact le_refl _
  · rw [if_neg hcond, if_neg hcond]
    rfl

theorem occursIn_append_head (p0 : Char) (ps l₁ l₂ : Str) (h : p0 ∉ l₁) :
    occursIn (p0 :: ps) (l₁ ++ l₂) = occursIn (p0 :: ps) l₂ := by
  induction l₁ with
  | nil => rfl
  | cons a l ih =>
      have hne : p0 ≠ a := fun he => h (he ▸ List.mem_cons_self a l)
      have hrest : p0 ∉ l := fun hm => h (List.mem_cons_of_mem _ hm)
      simp only [List.cons_append, occursIn, leadsWith, hne, decide_False,
        Bool.false_and, Bool.false_or]
      exact ih hrest

theorem leadsWith_replaceAll (pat rep : Str) (hrep : rep ≠ []) :
    ∀ (s q : Str), q ≠ [] → (∀ c ∈ q, c ∉ rep) →
      leadsWith q (replaceAll pat rep s) = true → leadsWith q s = true := by
  intro s
  induction s with
  | nil =>
      intro q hq _ hlead
      rw [replaceAll_nil] at hlead
      cases q with
      | nil => exact absurd rfl hq
      | cons q0 qs => simp [leadsWith] at hlead
  | cons c cs ih =>
      intro q hq hdisj hlead
      rw [replaceAll_cons] at hlead
      by_cases hcond : leadsWith pat (c :: cs) = true ∧ pat ≠ []
      · rw [if_pos hcond] at hlead
        cases q with
        | nil => exact absurd rfl hq
        | cons q0 qs =>
            cases rep with
            | nil => exact absurd rfl hrep
            | cons r0 rs =>
                have hq0 : q0 ∉ (r0 :: rs : Str) := hdisj q0 (List.mem_cons_self _ _)
                have hne : q0 ≠ r0 := fun he => hq0 (he ▸ List.mem_cons_self _ _)
                simp [leadsWith, hne] at hlead
      · rw [if_neg hcond] at hlead
        cases q with
        | nil => exact absurd rfl hq
        | cons q0 qs =>
            simp only [leadsWith, Bool.and_eq_true, decide_eq_true_eq] at hlead ⊢
            obtain ⟨hq0c, hqs⟩ := hlead
            refine ⟨hq0c, ?_⟩
            cases qs with
            | nil => rfl
            | cons q1 qs' =>
                exact ih (q1 :: qs') (by simp)
                  (fun d hd => hdisj d (List.mem_cons_of_mem _ hd)) hqs

theorem occursIn_replaceAll (pat rep : Str) (hpat : pat ≠ []) (hrep : rep ≠ [])
    (hdisj : ∀ c ∈ pat, c ∉ rep) :
    ∀ s : Str, occursIn pat (replaceAll pat rep s) = false := by
  have H : ∀ (n : Nat) (s : Str), s.length ≤ n →
      occursIn pat (replaceAll pat rep s) = false := by
    intro n
    induction n with
    | zero =>
        intro s hs
        have : s = [] := List.eq_nil_of_length_eq_zero (Nat.le_zero.mp hs)
        subst this
        rw [replaceAll_nil]
        cases pat with
        | nil => exact absurd rfl hpat
        | cons p ps => rfl
    | succ n ih =>
        intro s hs
        cases s with
        | nil =>
            rw [replaceAll_nil]
            cases pat with
            | nil => exact absurd rfl hpat
            | cons p ps => rfl
        | cons c cs =>
            rw [replaceAll_cons]
            by_cases hcond : leadsWith pat (c :: cs) = true ∧ pat ≠ []
            · rw [if_pos hcond]
              obtain ⟨p0, ps, hp⟩ : ∃ p0 ps, pat = p0 :: ps := by
                cases pat with
                | nil => exact absurd rfl hpat
                | cons p0 ps => exact ⟨p0, ps, rfl⟩
              have hp0 : p0 ∉ rep := by
                subst hp; exact hdisj p0 (List.mem_cons_self _ _)
              rw [hp, occursIn_append_head p0 ps rep _ hp0, ← hp]
              apply ih
              have := List.length_drop (pat.length - 1) cs
              simp only [List.length_cons] at hs
              omega
            · rw [if_neg hcond]
              have hR : occursIn pat (replaceAll pat rep cs) = false := by
                apply ih
                simp only [List.length_cons] at hs
                omega
              obtain ⟨p0, ps, hp⟩ : ∃ p0 ps, pat = p0 :: ps := by
                cases pat with
                | nil => exact absurd rfl hpat
                | cons p0 ps => exact ⟨p0, ps, rfl⟩
              simp only [occursIn, hR, Bool.or_false]
              by_contra hlead
              rw [Bool.not_eq_false] at hlead
              subst hp
              simp only [leadsWith, Bool.and_eq_true, decide_eq_true_eq] at hlead
              obtain ⟨hpc, hps⟩ := hlead
              have hfull : leadsWith (p0 :: ps) (c :: cs) = true := by
                simp only [leadsWith, Bool.and_eq_true, decide_eq_true_eq]
                refine ⟨hpc, ?_⟩
                cases ps with
                | nil => rfl
                | cons p1 ps' =>
                    exact leadsWith_replaceAll (p0 :: p1 :: ps') rep hrep cs (p1 :: ps') (by simp)
                      (fun d hd => hdisj d (List.mem_cons_of_mem _ hd)) hps
              exact hcond ⟨hfull, by simp⟩
  exact fun s => H s.length s le_rfl

theorem occursIn_sanitize (tok msg : Str) (htok : tok ≠ [])
    (hdisj : ∀ c ∈ tok, c ∉ TOKEN_MARKER) :
    occursIn tok (sanitize_error (some tok) msg) = false ∨
      occursIn tok msg = false := by
  simp only [sanitize_error]
  by_cases h : tok ≠ [] ∧ occursIn tok msg = true
  · rw [if_pos h]
    exact Or.inl (occursIn_replaceAll tok TOKEN_MARKER htok (by decide) hdisj msg)
  · rw [if_neg h]
    right
    rcases Bool.eq_false_or_eq_true (occursIn tok msg) with ht | hf
    · exact absurd ⟨htok, ht⟩ h
    · exact hf

/-! ### Selection rule -/

theorem needs_sync_iff (cfg : SyncConfig) (now : Nat) (m : SyncMetadata)
    (hcoh : m.sync_status = .failed → 0 < m.retry_count → m.last_retry ≠ none) :
    needs_sync cfg now m = true ↔
      m.enabled = true ∧ m.sync_status ≠ .in_progress ∧
      (m.sync_status = .failed ∧ 0 < m.retry_count →
        m.retry_count < cfg.max_retries ∧
        ∀ t, m.last_retry = some t →
          t + cfg.retry_base_delay_seconds * 2 ^ m.retry_count ≤ now) ∧
      (m.next_sync = none ∨ ∃ t, m.next_sync = some t ∧ t ≤ now) := by
  unfold needs_sync
  by_cases hen : m.enabled = true
  case neg =>
    have hfalse : m.enabled = false := by revert hen; cases m.enabled <;> simp
    simp [hfalse]
  case pos =>
    simp only [hen, Bool.not_true, Bool.false_eq_true, if_false, ne_eq, true_and]
    by_cases hip : m.sync_status = .in_progress
    · simp [hip]
    · rw [if_neg hip]
      simp only [hip, not_false_iff, true_and]
      by_cases hf : m.sync_status = .failed ∧ 0 < m.retry_count
      · rw [if_pos hf]
        by_cases hmax : cfg.max_retries ≤ m.retry_count
        · rw [if_pos hmax]
          simp only [Bool.not_false, if_true]
          constructor
          · intro h; exact absurd h (by simp)
          · intro h
            have := (h.1 hf).1
            omega
        · rw [if_neg hmax]
          cases hlr : m.last_retry with
          | none => exact absurd hlr (hcoh hf.1 hf.2)
          | some t =>
              by_cases hback : t + cfg.retry_base_delay_seconds * 2 ^ m.retry_count ≤ now
              · simp only [hback, decide_True, Bool.not_true, Bool.false_eq_true, if_false]
                cases hns : m.next_sync with
                | none =>
                    simp only [true_iff]
                    exact ⟨fun _ => ⟨by omega, fun v hv => by
                      injection hv with hv; subst hv; exact hback⟩, by simp⟩
                | some u =>
                    simp only [decide_eq_true_eq]
                    constructor
                    · intro h
                      exact ⟨fun _ => ⟨by omega, fun v hv => by
                        injection hv with hv; subst hv; exact hback⟩, Or.inr ⟨u, rfl, h⟩⟩
                    · rintro ⟨_, h | ⟨v, hv, hvle⟩⟩
                      · exact absurd h (by simp)
                      · injection hv with hv; subst hv; exact hvle
              · simp only [hback, decide_False, Bool.not_false, if_true]
                constructor
                · intro h; exact absurd h (by simp)
                · intro h
                  exact absurd ((h.1 hf).2 t rfl) hback
      · rw [if_neg hf]
        simp only [Bool.not_true, Bool.false_eq_true, if_false, hf, false_implies, true_and]
        cases hns : m.next_sync with
        | none => simp
        | some u =>
            simp only [decide_eq_true_eq]
            constructor
            · intro h; exact Or.inr ⟨u, rfl, h⟩
            · rintro (h | ⟨v, hv, hvle⟩)
              · exact absurd h (by simp)
              · injection hv with hv; omega

/-! ### Characterization of the three terminal writes of `sync_project` -/

theorem sync_project_failed_eq (env : GitEnv) (cfg : SyncConfig) (s now : Nat)
    (m : SyncMetadata) (force : Bool) (tb e : Str) (k mr : Nat)
    (hres : (sync_project env cfg s now m force tb).2 = SyncResult.failed e k mr) :
    sync_project env cfg s now m force tb =
      (failure_terminal cfg now e (now - s) tb
        { m with sync_status := .in_progress, error_message := none },
       SyncResult.failed e (m.retry_count + 1) cfg.max_retries) := by
  rcases h : sync_project env cfg s now m force tb with ⟨m', r⟩
  rw [h] at hres
  simp only at hres
  subst hres
  simp only [sync_project] at h
  split at h
  · simp only [Prod.mk.injEq] at h
    exact absurd h.2 (by simp)
  · split at h
    · simp only [Prod.mk.injEq, SyncResult.failed.injEq] at h
      obtain ⟨h1, h2, h3, h4⟩ := h
      subst h2; subst h3; subst h4
      rw [← h1]
    · split at h
      · simp only [Prod.mk.injEq, SyncResult.failed.injEq] at h
        obtain ⟨h1, h2, h3, h4⟩ := h
        subst h2; subst h3; subst h4
        rw [← h1]
      · split at h
        · simp only [Prod.mk.injEq, SyncResult.failed.injEq] at h
          obtain ⟨h1, h2, h3, h4⟩ := h
          subst h2; subst h3; subst h4
          rw [← h1]
        · simp only [Prod.mk.injEq] at h
          exact absurd h.2 (by simp)

theorem sync_project_skipped_eq (env : GitEnv) (cfg : SyncConfig) (s now : Nat)
    (m : SyncMetadata) (force : Bool) (tb reason : Str)
    (hres : (sync_project env cfg s now m force tb).2 = SyncResult.skipped reason) :
    sync_project env cfg s now m force tb =
      ({ m with
          sync_status := .completed
          error_message := none
          next_sync := some (now + 60 * m.sync_interval_minutes)
          retry_count := 0 },
       SyncResult.skipped (str "No updates detected")) := by
  rcases h : sync_project env cfg s now m force tb with ⟨m', r⟩
  rw [h] at hres
  simp only at hres
  subst hres
  simp only [sync_project] at h
  split at h
  · simp only [Prod.mk.injEq, SyncResult.skipped.injEq] at h
    obtain ⟨h1, h2⟩ := h
    rw [← h1, ← h2]
  · split at h
    · simp only [Prod.mk.injEq] at h
      exact absurd h.2 (by simp)
    · split at h
      · simp only [Prod.mk.injEq] at h
        exact absurd h.2 (by simp)
      · split at h
        · simp only [Prod.mk.injEq] at h
          exact absurd h.2 (by simp)
        · simp only [Prod.mk.injEq] at h
          exact absurd h.2 (by simp)

theorem sync_project_completed_eq (env : GitEnv) (cfg : SyncConfig) (s now : Nat)
    (m : SyncMetadata) (force : Bool) (tb : Str) (d ec : Nat)
    (ch : Option Str) (du : Nat)
    (hres : (sync_project env cfg s now m force tb).2 = SyncResult.completed d ec ch du) :
    (sync_project env cfg s now m force tb).1 =
      { m with
        last_synced := some now
        last_commit_hash := ch
        sync_status := .completed
        document_count := d
        embedding_count := ec
        error_message := none
        next_sync := some (now + 60 * m.sync_interval_minutes)
        retry_count := 0
        total_syncs := m.total_syncs + 1
        successful_syncs := m.successful_syncs + 1
        sync_history :=
          SyncMetadata.add_history_entry m.sync_history
            { timestamp := now
              status := str "completed"
              commit_hash := ch
              document_count := some d
              embedding_count := some ec
              duration_seconds := some du
              triggered_by := tb } } ∧
      d = env.documents ∧ du = now - s := by
  rcases h : sync_project env cfg s now m force tb with ⟨m', r⟩
  rw [h] at hres
  simp only at hres
  subst hres
  simp only [sync_project] at h
  split at h
  · simp only [Prod.mk.injEq] at h
    exact absurd h.2 (by simp)
  · split at h
    · simp only [Prod.mk.injEq] at h
      exact absurd h.2 (by simp)
    · split at h
      · simp only [Prod.mk.injEq] at h
        exact absurd h.2 (by simp)
      · split at h
        · simp only [Prod.mk.injEq] at h
          exact absurd h.2 (by simp)
        · simp only [Prod.mk.injEq, SyncResult.completed.injEq] at h
          obtain ⟨h1, h2, h3, h4, h5⟩ := h
          subst h2; subst h3; subst h4; subst h5
          exact ⟨by rw [← h1], rfl, rfl⟩

/-! ### Claim theorems -/

/-- C1: for every record in the store and every evaluation time `now`,
`get_projects_needing_sync` returns the record iff it is enabled, its
status is not `in_progress`, a failed record with positive retry count
passes both the `retry_count < max_retries` gate and the exponential
backoff bound `last_retry + retry_base_delay * 2 ^ retry_count ≤ now`,
and `next_sync` is unset or has passed.  Stated for records whose failed
state carries a `last_retry` timestamp, as the state/retry coherence
invariant guarantees for every record the system writes. -/
theorem C1_due_selection (cfg : SyncConfig) (now : Nat)
    (store : List SyncMetadata) (m : SyncMetadata)
    (hcoh : m.sync_status = .failed → 0 < m.retry_count → m.last_retry ≠ none) :
    m ∈ get_projects_needing_sync cfg now store ↔
      m ∈ store ∧ m.enabled = true ∧ m.sync_status ≠ .in_progress ∧
      (m.sync_status = .failed ∧ 0 < m.retry_count →
        m.retry_count < cfg.max_retries ∧
        ∀ t, m.last_retry = some t →
          t + cfg.retry_base_delay_seconds * 2 ^ m.retry_count ≤ now) ∧
      (m.next_sync = none ∨ ∃ t, m.next_sync = some t ∧ t ≤ now) := by
  unfold get_projects_needing_sync
  rw [List.mem_filter]
  exact and_congr_right fun _ => needs_sync_iff cfg now m hcoh

/-- Witness for C1: a fresh enabled record with no `next_sync` is
selected. -/
theorem C1_due_selection_witness :
    sampleRecord ∈ get_projects_needing_sync {} 0 [sampleRecord] :=
  (C1_due_selection {} 0 [sampleRecord] sampleRecord (by decide)).mpr
    ⟨by simp, by decide, by decide, fun h => absurd h (by decide), Or.inl rfl⟩

/-- C2: every sync run that terminates in failure writes the failure
terminal: status `failed`, the failure reason as `error_message`,
retry count incremented by exactly one, `last_retry = now`, both
`total_syncs` and `failed_syncs` incremented by one, one `failed` history
entry prepended, and `next_sync` computed from the exponential backoff on
the incremented retry count when it is below `max_retries`, and from the
sync interval otherwise. -/
theorem C2_failure_accounting (env : GitEnv) (cfg : SyncConfig) (s now : Nat)
    (m : SyncMetadata) (force : Bool) (tb e : Str) (k mr : Nat)
    (hres : (sync_project env cfg s now m force tb).2 = SyncResult.failed e k mr) :
    ((sync_project env cfg s now m force tb).1.sync_status = .failed) ∧
    ((sync_project env cfg s now m force tb).1.error_message = some e) ∧
    ((sync_project env cfg s now m force tb).1.retry_count = m.retry_count + 1) ∧
    ((sync_project env cfg s now m force tb).1.last_retry = some now) ∧
    ((sync_project env cfg s now m force tb).1.total_syncs = m.total_syncs + 1) ∧
    ((sync_project env cfg s now m force tb).1.failed_syncs = m.failed_syncs + 1) ∧
    ((sync_project env cfg s now m force tb).1.successful_syncs = m.successful_syncs) ∧
    ((sync_project env cfg s now m force tb).1.sync_history =
      { timestamp := now, status := str "failed", error_message := some e,
        duration_seconds := some (now - s), triggered_by := tb } ::
        m.sync_history.take 49) ∧
    ((sync_project env cfg s now m force tb).1.next_sync =
      some (if m.retry_count + 1 < cfg.max_retries then
              now + cfg.retry_base_delay_seconds * 2 ^ (m.retry_count + 1)
            else
              now + 60 * m.sync_interval_minutes)) := by
  have h := sync_project_failed_eq env cfg s now m force tb e k mr hres
  rw [h]
  simp only [failure_terminal, SyncMetadata.add_history_entry, List.take_succ_cons]
  refine ⟨?_, ?_, ?_, ?_, ?_, ?_, ?_, ?_, ?_⟩ <;> trivial

/-- Witness for C2: a failed pull on a fresh record yields the failure
terminal with one retry and the backoff schedule. -/
theorem C2_failure_accounting_witness :
    ((sync_project envPullFails {} 0 7 sampleRecord true (str "manual")).1.sync_status = .failed) ∧
    ((sync_project envPullFails {} 0 7 sampleRecord true (str "manual")).1.error_message =
      some (str "Failed to pull latest changes")) ∧
    ((sync_project envPullFails {} 0 7 sampleRecord true (str "manual")).1.retry_count =
      sampleRecord.retry_count + 1) ∧
    ((sync_project envPullFails {} 0 7 sampleRecord true (str "manual")).1.last_retry = some 7) ∧
    ((sync_project envPullFails {} 0 7 sampleRecord true (str "manual")).1.total_syncs =
      sampleRecord.total_syncs + 1) ∧
    ((sync_project envPullFails {} 0 7 sampleRecord true (str "manual")).1.failed_syncs =
      sampleRecord.failed_syncs + 1) ∧
    ((sync_project envPullFails {} 0 7 sampleRecord true (str "manual")).1.successful_syncs =
      sampleRecord.successful_syncs) ∧
    ((sync_project envPullFails {} 0 7 sampleRecord true (str "manual")).1.sync_history =
      { timestamp := 7, status := str "failed",
        error_message := some (str "Failed to pull latest changes"),
        duration_seconds := some (7 - 0), triggered_by := str "manual" } ::
        sampleRecord.sync_history.take 49) ∧
    ((sync_project envPullFails {} 0 7 sampleRecord true (str "manual")).1.next_sync =
      some (if sampleRecord.retry_count + 1 < SyncConfig.max_retries {} then
              7 + SyncConfig.retry_base_delay_seconds {} * 2 ^ (sampleRecord.retry_count + 1)
            else
              7 + 60 * sampleRecord.sync_interval_minutes)) :=
  C2_failure_accounting envPullFails {} 0 7 sampleRecord true (str "manual")
    (str "Failed to pull latest changes") 1 3 (by decide)

/-- C3: a run with `force = false` whose update check reports no updates
short-circuits: the saved record is the input with status `completed`,
a cleared error message, `retry_count` reset to 0 and
`next_sync = now + sync_interval`; the result is a success with
`skipped = true`; the history and `last_commit_hash` are untouched. -/
theorem C3_short_circuit (env : GitEnv) (cfg : SyncConfig) (s now : Nat)
    (m : SyncMetadata) (tb : Str)
    (hupd : (check_for_updates env m).has_updates = false) :
    sync_project env cfg s now m false tb =
      ({ m with
          sync_status := .completed
          error_message := none
          next_sync := some (now + 60 * m.sync_interval_minutes)
          retry_count := 0 },
        SyncResult.skipped (str "No updates detected")) ∧
    ((sync_project env cfg s now m false tb).2.success = true) ∧
    ((sync_project env cfg s now m false tb).1.sync_history = m.sync_history) ∧
    ((sync_project env cfg s now m false tb).1.last_commit_hash = m.last_commit_hash) := by
  have hpair : sync_project env cfg s now m false tb =
      ({ m with
          sync_status := .completed
          error_message := none
          next_sync := some (now + 60 * m.sync_interval_minutes)
          retry_count := 0 },
        SyncResult.skipped (str "No updates detected")) := by
    simp only [sync_project]
    rw [if_pos ⟨by simp, hupd⟩]
  refine ⟨hpair, ?_, ?_, ?_⟩ <;> (rw [hpair]; try rfl)

/-- Witness for C3: with the index already at the remote head, the run is
skipped and the stale retry count is cleared. -/
theorem C3_short_circuit_witness :
    sync_project envNoUpdates {} 0 9 upToDateRecord false (str "scheduler") =
      ({ upToDateRecord with
          sync_status := .completed
          error_message := none
          next_sync := some (9 + 60 * upToDateRecord.sync_interval_minutes)
          retry_count := 0 },
        SyncResult.skipped (str "No updates detected")) ∧
    ((sync_project envNoUpdates {} 0 9 upToDateRecord false (str "scheduler")).2.success = true) ∧
    ((sync_project envNoUpdates {} 0 9 upToDateRecord false (str "scheduler")).1.sync_history =
      upToDateRecord.sync_history) ∧
    ((sync_project envNoUpdates {} 0 9 upToDateRecord false (str "scheduler")).1.last_commit_hash =
      upToDateRecord.last_commit_hash) :=
  C3_short_circuit envNoUpdates {} 0 9 upToDateRecord (str "scheduler") (by decide)

/-- C4 counterexample: seeding the store with a record in `in_progress`
and running `start()` leaves the record exactly as loaded — still
`in_progress`, not `pending` — because `SyncScheduler.start` performs no
startup recovery. -/
theorem C4_no_recovery_counterexample :
    crashResidueRecord.sync_status = .in_progress ∧
    scheduler_start {} [crashResidueRecord] [] = [crashResidueRecord] ∧
    crashResidueRecord.sync_status ≠ .pending ∧
    crashResidueRecord.error_message = none := by
  exact ⟨rfl, rfl, by decide, rfl⟩

/-- C4 amended: `start()` writes nothing to the records loaded from the
store — auto-registration only appends records for unknown keys — so a
record loaded with `status = in_progress` still has that status after
`start()`; such a record is merely excluded from selection at every
tick. -/
theorem C4_startup_keeps_records (cfg : SyncConfig) (store : List SyncMetadata)
    (discovered : List DiscoveredProject) (m : SyncMetadata) (hm : m ∈ store) :
    m ∈ scheduler_start cfg store discovered ∧
    (m.sync_status = .in_progress → ∀ now, needs_sync cfg now m = false) := by
  constructor
  · unfold scheduler_start
    split
    · have H : ∀ (d : List DiscoveredProject) (st : List SyncMetadata), m ∈ st →
          m ∈ d.foldl
            (fun st d =>
              match find_project st d.owner d.repo d.repo_type with
              | some _ => st
              | none =>
                  st ++ [add_project cfg.default_interval_minutes none
                          d.repo_url d.owner d.repo d.repo_type none none true]) st := by
        intro d
        induction d with
        | nil => intro st h; exact h
        | cons a l ih =>
            intro st h
            apply ih
            show m ∈ (match find_project st a.owner a.repo a.repo_type with
              | some _ => st
              | none =>
                  st ++ [add_project cfg.default_interval_minutes none
                          a.repo_url a.owner a.repo a.repo_type none none true])
            cases find_project st a.owner a.repo a.repo_type with
            | none => exact List.mem_append_left _ h
            | some _ => exact h
      exact H discovered store hm
    · exact hm
  · intro hip now
    unfold needs_sync
    cases hen : m.enabled with
    | false => simp
    | true => simp [hip]

/-- Witness for C4 amended: the crash-residue record survives `start()`
unchanged and is not selected. -/
theorem C4_startup_keeps_records_witness :
    crashResidueRecord ∈ scheduler_start {} [crashResidueRecord] [] ∧
    needs_sync {} 0 crashResidueRecord = false :=
  ⟨(C4_startup_keeps_records {} [crashResidueRecord] [] crashResidueRecord (by simp)).1,
   (C4_startup_keeps_records {} [crashResidueRecord] [] crashResidueRecord (by simp)).2 rfl 0⟩

/-- C5 counterexample: with the registered token `TOKEN`, a failed clone
whose git stderr contains the token stores an error message in which the
token literal still occurs — the fixed marker `***TOKEN***` written by
the redaction itself contains it. -/
theorem C5_redaction_counterexample :
    markerTokenRecord.access_token = some (str "TOKEN") ∧
    occursIn (str "TOKEN") (str "fatal: TOKEN rejected") = true ∧
    (sync_project envCloneLeaksMarker {} 0 7 markerTokenRecord false
        (str "scheduler")).1.error_message =
      some (str "Error during cloning: fatal: ***TOKEN*** rejected") ∧
    occursIn (str "TOKEN")
      (str "Error during cloning: fatal: ***TOKEN*** rejected") = true := by
  exact ⟨rfl, by decide, by decide, by decide⟩

/-- C5 amended: when the clone fails with a git error whose stderr
contains the record's (nonempty) access token, the failure terminal
stores `error_message = "Error during cloning: " ++` the stderr with
every occurrence of the token replaced by the fixed marker, and the same
message goes into the history entry; the replaced component contains no
occurrence of the token whenever the token shares no character with the
marker `***TOKEN***`. -/
theorem C5_clone_error_redacted (env : GitEnv) (cfg : SyncConfig)
    (s now : Nat) (m : SyncMetadata) (force : Bool) (tb tok stderr : Str)
    (htok : m.access_token = some tok) (hne : tok ≠ [])
    (hdisj : ∀ c ∈ tok, c ∉ TOKEN_MARKER)
    (hrepo : env.repo_exists = false)
    (hclone : env.clone_outcome = .gitError stderr)
    (hocc : occursIn tok stderr = true) :
    ((sync_project env cfg s now m force tb).1.error_message =
      some (str "Error during cloning: " ++ replaceAll tok TOKEN_MARKER stderr)) ∧
    ((sync_project env cfg s now m force tb).1.sync_history.head? =
      some { timestamp := now, status := str "failed",
             error_message :=
               some (str "Error during cloning: " ++ replaceAll tok TOKEN_MARKER stderr),
             duration_seconds := some (now - s), triggered_by := tb }) ∧
    occursIn tok (replaceAll tok TOKEN_MARKER stderr) = false := by
  have hmsg : download_repo_error m.access_token env.clone_outcome =
      some (str "Error during cloning: " ++ replaceAll tok TOKEN_MARKER stderr) := by
    rw [htok, hclone]
    simp only [download_repo_error, sanitize_error]
    rw [if_pos ⟨hne, hocc⟩]
  have hfst : (sync_project env cfg s now m force tb).1 =
      failure_terminal cfg now
        (str "Error during cloning: " ++ replaceAll tok TOKEN_MARKER stderr)
        (now - s) tb { m with sync_status := .in_progress, error_message := none } := by
    simp only [sync_project, check_for_updates, hrepo]
    rw [if_neg (by simp)]
    rw [if_neg (by simp [hrepo])]
    rw [hmsg]
  refine ⟨?_, ?_, occursIn_replaceAll tok TOKEN_MARKER hne (by decide) hdisj stderr⟩
  · rw [hfst]; rfl
  · rw [hfst]
    simp [failure_terminal, SyncMetadata.add_history_entry]

/-- Witness for C5 amended: token `sec99` (no character in common with
the marker) leaking into the clone stderr is fully redacted. -/
theorem C5_clone_error_redacted_witness :
    ((sync_project envCloneLeaks {} 0 7 secTokenRecord false
        (str "scheduler")).1.error_message =
      some (str "Error during cloning: " ++
        replaceAll (str "sec99") TOKEN_MARKER (str "fatal: sec99 rejected"))) ∧
    ((sync_project envCloneLeaks {} 0 7 secTokenRecord false
        (str "scheduler")).1.sync_history.head? =
      some { timestamp := 7, status := str "failed",
             error_message :=
               some (str "Error during cloning: " ++
                 replaceAll (str "sec99") TOKEN_MARKER (str "fatal: sec99 rejected")),
             duration_seconds := some (7 - 0), triggered_by := str "scheduler" }) ∧
    occursIn (str "sec99")
      (replaceAll (str "sec99") TOKEN_MARKER (str "fatal: sec99 rejected")) = false :=
  C5_clone_error_redacted envCloneLeaks {} 0 7 secTokenRecord false
    (str "scheduler") (str "sec99") (str "fatal: sec99 rejected")
    rfl (by decide) (by decide) rfl rfl (by decide)

/-- C6 counterexample: `update_project_settings` with `enabled = true` on
a coherent failed record resets `retry_count` to 0 while leaving the
status `failed`, breaking the state/retry coherence invariant. -/
theorem C6_coherence_counterexample :
    coherent failedRecord ∧
    (update_project_settings failedRecord none (some true)).sync_status = .failed ∧
    (update_project_settings failedRecord none (some true)).retry_count = 0 ∧
    ¬ coherent (update_project_settings failedRecord none (some true)) := by
  exact ⟨by decide, by decide, by decide, by decide⟩

theorem update_project_settings_fields (m : SyncMetadata) (i : Option Nat)
    (en : Option Bool) :
    (update_project_settings m i en).sync_status = m.sync_status ∧
    (update_project_settings m i en).error_message = m.error_message ∧
    (update_project_settings m i en).last_retry = m.last_retry ∧
    (update_project_settings m i en).total_syncs = m.total_syncs ∧
    (update_project_settings m i en).successful_syncs = m.successful_syncs ∧
    (update_project_settings m i en).failed_syncs = m.failed_syncs ∧
    ((update_project_settings m i en).retry_count = m.retry_count ∨
      (update_project_settings m i en).retry_count = 0) := by
  rcases i with _ | i <;> rcases en with _ | b
  all_goals try cases b
  all_goals
    simp only [update_project_settings]
  all_goals
    cases hls : m.last_synced <;> simp [hls] <;> split_ifs <;> simp

theorem reset_project_retries_props (now : Nat) (m : SyncMetadata) :
    (reset_project_retries now m).error_message = m.error_message ∧
    (reset_project_retries now m).retry_count = 0 ∧
    (reset_project_retries now m).total_syncs = m.total_syncs ∧
    (reset_project_retries now m).successful_syncs = m.successful_syncs ∧
    (reset_project_retries now m).failed_syncs = m.failed_syncs ∧
    (((reset_project_retries now m).sync_status = m.sync_status ∧
        m.sync_status ≠ .failed) ∨
      (reset_project_retries now m).sync_status = .pending) := by
  by_cases h : m.sync_status = .failed <;> simp [reset_project_retries, h]

/-- C6 amended: the state/retry coherence invariant
(`completed → retry_count = 0 ∧ error_message = None` and
`failed → retry_count ≥ 1 ∧ last_retry ≠ None`) is established by every
terminal of `sync_project`, preserved by `add_project` and
`reset_project_retries`, and `update_project_settings` preserves its
`completed` half — but not its `failed` half, which
`C6_coherence_counterexample` shows it can break by resetting
`retry_count` on a still-failed record. -/
theorem C6_coherence_amended :
    (∀ (env : GitEnv) (cfg : SyncConfig) (s now : Nat) (m : SyncMetadata)
        (force : Bool) (tb : Str),
      coherent ((sync_project env cfg s now m force tb).1)) ∧
    (∀ (dflt : Nat) (m : SyncMetadata) (url o r t : Str) (i : Option Nat)
        (tok : Option Str) (en : Bool), coherent m →
      coherent (add_project dflt (some m) url o r t i tok en)) ∧
    (∀ (dflt : Nat) (url o r t : Str) (i : Option Nat) (tok : Option Str)
        (en : Bool), coherent (add_project dflt none url o r t i tok en)) ∧
    (∀ (now : Nat) (m : SyncMetadata), coherent m →
      coherent (reset_project_retries now m)) ∧
    (∀ (m : SyncMetadata) (i : Option Nat) (en : Option Bool), coherent m →
      ((update_project_settings m i en).sync_status = .completed →
        (update_project_settings m i en).retry_count = 0 ∧
        (update_project_settings m i en).error_message = none)) := by
  refine ⟨?_, ?_, ?_, ?_, ?_⟩
  · intro env cfg s now m force tb
    cases hres : (sync_project env cfg s now m force tb).2 with
    | skipped reason =>
        have h := sync_project_skipped_eq env cfg s now m force tb reason hres
        rw [h]
        exact ⟨fun _ => ⟨rfl, rfl⟩, fun hf => absurd hf (by simp)⟩
    | completed d ec ch du =>
        have h := (sync_project_completed_eq env cfg s now m force tb d ec ch du hres).1
        rw [h]
        exact ⟨fun _ => ⟨rfl, rfl⟩, fun hf => absurd hf (by simp)⟩
    | failed e k mr =>
        have h := sync_project_failed_eq env cfg s now m force tb e k mr hres
        rw [h]
        refine ⟨fun hc => absurd hc (by simp [failure_terminal]), fun _ => ⟨?_, ?_⟩⟩
        · show 1 ≤ m.retry_count + 1
          omega
        · show (some now : Option Nat) ≠ none
          simp
  · intro dflt m url o r t i tok en hm
    exact hm
  · intro dflt url o r t i tok en
    exact ⟨fun h => absurd h (by simp [add_project]), fun h => absurd h (by simp [add_project])⟩
  · intro now m hm
    obtain ⟨herr, hr0, _, _, _, hst⟩ := reset_project_retries_props now m
    rcases hst with ⟨hs, hnf⟩ | hs
    · refine ⟨fun hc => ⟨hr0, ?_⟩, fun hf => absurd (hs.symm.trans hf) hnf⟩
      · rw [herr]
        exact (hm.1 (hs.symm.trans hc)).2
    · exact ⟨fun hc => by rw [hs] at hc; exact absurd hc (by decide),
        fun hf => by rw [hs] at hf; exact absurd hf (by decide)⟩
  · intro m i en hm hc
    obtain ⟨hs, he, _, _, _, _, hr⟩ := update_project_settings_fields m i en
    have hcm : m.sync_status = .completed := hs ▸ hc
    have hz : m.retry_count = 0 := (hm.1 hcm).1
    refine ⟨?_, ?_⟩
    · rcases hr with hr | hr
      · rw [hr, hz]
      · exact hr
    · rw [he]
      exact (hm.1 hcm).2

/-- Witness for C6 amended: the failure terminal, the upsert on a failed
record and the retry reset all yield coherent records. -/
theorem C6_coherence_amended_witness :
    coherent ((sync_project envPullFails {} 0 7 sampleRecord true (str "manual")).1) ∧
    coherent (add_project 60 (some failedRecord) (str "u") (str "alice")
      (str "repo") (str "github") none none true) ∧
    coherent (reset_project_retries 3 failedRecord) :=
  ⟨C6_coherence_amended.1 envPullFails {} 0 7 sampleRecord true (str "manual"),
   C6_coherence_amended.2.1 60 failedRecord (str "u") (str "alice") (str "repo")
     (str "github") none none true (by decide),
   C6_coherence_amended.2.2.2.1 3 failedRecord (by decide)⟩

/-- C7: `successful_syncs + failed_syncs = total_syncs` is preserved by
every operation: a success terminal adds one to `total_syncs` and
`successful_syncs`, a failure terminal adds one to `total_syncs` and
`failed_syncs`, a skipped run changes no counter, and the registry
operations (`add_project`, `update_project_settings`,
`reset_project_retries`) change no counter; a freshly created record
starts with all three at zero. -/
theorem C7_counter_coherence :
    (∀ (env : GitEnv) (cfg : SyncConfig) (s now : Nat) (m : SyncMetadata)
        (force : Bool) (tb : Str),
      (∀ reason, (sync_project env cfg s now m force tb).2 = SyncResult.skipped reason →
        (sync_project env cfg s now m force tb).1.total_syncs = m.total_syncs ∧
        (sync_project env cfg s now m force tb).1.failed_syncs = m.failed_syncs ∧
        (sync_project env cfg s now m force tb).1.successful_syncs = m.successful_syncs) ∧
      (∀ d ec ch du,
        (sync_project env cfg s now m force tb).2 = SyncResult.completed d ec ch du →
        (sync_project env cfg s now m force tb).1.total_syncs = m.total_syncs + 1 ∧
        (sync_project env cfg s now m force tb).1.successful_syncs = m.successful_syncs + 1 ∧
        (sync_project env cfg s now m force tb).1.failed_syncs = m.failed_syncs) ∧
      (∀ e k mr,
        (sync_project env cfg s now m force tb).2 = SyncResult.failed e k mr →
        (sync_project env cfg s now m force tb).1.total_syncs = m.total_syncs + 1 ∧
        (sync_project env cfg s now m force tb).1.failed_syncs = m.failed_syncs + 1 ∧
        (sync_project env cfg s now m force tb).1.successful_syncs = m.successful_syncs) ∧
      (m.successful_syncs + m.failed_syncs = m.total_syncs →
        (sync_project env cfg s now m force tb).1.successful_syncs +
          (sync_project env cfg s now m force tb).1.failed_syncs =
          (sync_project env cfg s now m force tb).1.total_syncs)) ∧
    (∀ (dflt : Nat) (m : SyncMetadata) (url o r t : Str) (i : Option Nat)
        (tok : Option Str) (en : Bool),
      (add_project dflt (some m) url o r t i tok en).total_syncs = m.total_syncs ∧
      (add_project dflt (some m) url o r t i tok en).successful_syncs = m.successful_syncs ∧
      (add_project dflt (some m) url o r t i tok en).failed_syncs = m.failed_syncs) ∧
    (∀ (dflt : Nat) (url o r t : Str) (i : Option Nat) (tok : Option Str) (en : Bool),
      (add_project dflt none url o r t i tok en).total_syncs = 0 ∧
      (add_project dflt none url o r t i tok en).successful_syncs = 0 ∧
      (add_project dflt none url o r t i tok en).failed_syncs = 0) ∧
    (∀ (m : SyncMetadata) (i : Option Nat) (en : Option Bool),
      (update_project_settings m i en).total_syncs = m.total_syncs ∧
      (update_project_settings m i en).successful_syncs = m.successful_syncs ∧
      (update_project_settings m i en).failed_syncs = m.failed_syncs) ∧
    (∀ (now : Nat) (m : SyncMetadata),
      (reset_project_retries now m).total_syncs = m.total_syncs ∧
      (reset_project_retries now m).successful_syncs = m.successful_syncs ∧
      (reset_project_retries now m).failed_syncs = m.failed_syncs) := by
  refine ⟨?_, ?_, ?_, ?_, ?_⟩
  · intro env cfg s now m force tb
    refine ⟨?_, ?_, ?_, ?_⟩
    · intro reason hres
      rw [sync_project_skipped_eq env cfg s now m force tb reason hres]
      exact ⟨rfl, rfl, rfl⟩
    · intro d ec ch du hres
      rw [(sync_project_completed_eq env cfg s now m force tb d ec ch du hres).1]
      exact ⟨rfl, rfl, rfl⟩
    · intro e k mr hres
      rw [sync_project_failed_eq env cfg s now m force tb e k mr hres]
      exact ⟨rfl, rfl, rfl⟩
    · intro hEq
      cases hres : (sync_project env cfg s now m force tb).2 with
      | skipped reason =>
          rw [sync_project_skipped_eq env cfg s now m force tb reason hres]
          exact hEq
      | completed d ec ch du =>
          rw [(sync_project_completed_eq env cfg s now m force tb d ec ch du hres).1]
          show m.successful_syncs + 1 + m.failed_syncs = m.total_syncs + 1
          omega
      | failed e k mr =>
          rw [sync_project_failed_eq env cfg s now m force tb e k mr hres]
          show m.successful_syncs + (m.failed_syncs + 1) = m.total_syncs + 1
          omega
  · intro dflt m url o r t i tok en
    exact ⟨rfl, rfl, rfl⟩
  · intro dflt url o r t i tok en
    exact ⟨rfl, rfl, rfl⟩
  · intro m i en
    obtain ⟨_, _, _, h1, h2, h3, _⟩ := update_project_settings_fields m i en
    exact ⟨h1, h2, h3⟩
  · intro now m
    obtain ⟨_, _, h1, h2, h3, _⟩ := reset_project_retries_props now m
    exact ⟨h1, h2, h3⟩

/-- Witness for C7: a failed run on a fresh record adds one to
`total_syncs` and `failed_syncs`, keeps the counter equation, and a
settings update changes no counter. -/
theorem C7_counter_coherence_witness :
    ((sync_project envPullFails {} 0 7 sampleRecord true (str "manual")).1.total_syncs =
      sampleRecord.total_syncs + 1) ∧
    ((sync_project envPullFails {} 0 7 sampleRecord true (str "manual")).1.failed_syncs =
      sampleRecord.failed_syncs + 1) ∧
    ((sync_project envPullFails {} 0 7 sampleRecord true (str "manual")).1.successful_syncs =
      sampleRecord.successful_syncs) ∧
    ((sync_project envPullFails {} 0 7 sampleRecord true (str "manual")).1.successful_syncs +
        (sync_project envPullFails {} 0 7 sampleRecord true (str "manual")).1.failed_syncs =
      (sync_project envPullFails {} 0 7 sampleRecord true (str "manual")).1.total_syncs) ∧
    ((update_project_settings failedRecord none (some true)).total_syncs =
      failedRecord.total_syncs) := by
  have h := C7_counter_coherence
  have hrun := h.1 envPullFails {} 0 7 sampleRecord true (str "manual")
  have hf := hrun.2.2.1 (str "Failed to pull latest changes") 1 3 (by decide)
  have heq := hrun.2.2.2 (by decide)
  have hupd := (h.2.2.2.1 failedRecord none (some true)).1
  exact ⟨hf.1, hf.2.1, hf.2.2, heq, hupd⟩

/-- C8: the outward view drops `access_token` and depends on nothing
else: two records differing only in `access_token` have identical
`to_dict` views, and the views returned by `get_all_projects` and
`get_project_status` are invariant under any rewriting of the stored
tokens. -/
theorem C8_token_isolation :
    (∀ (m : SyncMetadata) (t₁ t₂ : Option Str),
      SyncMetadata.to_dict { m with access_token := t₁ } =
        SyncMetadata.to_dict { m with access_token := t₂ }) ∧
    (∀ (store : List SyncMetadata) (f : SyncMetadata → Option Str),
      get_all_projects (store.map fun m => { m with access_token := f m }) =
        get_all_projects store) ∧
    (∀ (store : List SyncMetadata) (f : SyncMetadata → Option Str) (o r t : Str),
      get_project_status (store.map fun m => { m with access_token := f m }) o r t =
        get_project_status store o r t) := by
  refine ⟨fun _ _ _ => rfl, ?_, ?_⟩
  · intro store f
    unfold get_all_projects
    rw [List.map_map]
    exact List.map_congr_left fun a _ => rfl
  · intro store f o r t
    unfold get_project_status find_project
    rw [List.find?_map]
    have hpred : ((fun m : SyncMetadata => decide (m.owner = o ∧ m.repo = r ∧ m.repo_type = t)) ∘
        fun m : SyncMetadata => { m with access_token := f m }) =
        fun m : SyncMetadata => decide (m.owner = o ∧ m.repo = r ∧ m.repo_type = t) :=
      funext fun m => rfl
    rw [hpred]
    cases store.find? fun m => decide (m.owner = o ∧ m.repo = r ∧ m.repo_type = t) with
    | none => rfl
    | some a => rfl

/-- C9 counterexample: re-enabling a record that was never synced but
carries a scheduled `next_sync` leaves `next_sync` unchanged (`some 100`)
rather than clearing it to `None` as the claim states. -/
theorem C9_update_counterexample :
    neverSyncedRecord.last_synced = none ∧
    (update_project_settings neverSyncedRecord none (some true)).next_sync = some 100 ∧
    (update_project_settings neverSyncedRecord none (some true)).next_sync ≠ none := by
  exact ⟨rfl, by decide, by decide⟩

/-- C9 amended: re-enabling through `update_project_settings` resets
`retry_count` to 0 and sets `enabled`; `next_sync` is recomputed as
`last_synced + sync_interval` (with the possibly-updated interval) when
`last_synced` is set, and is left unchanged when `last_synced` is not
set. -/
theorem C9_update_reenable (m : SyncMetadata) (i : Option Nat) :
    (update_project_settings m i (some true)).retry_count = 0 ∧
    (update_project_settings m i (some true)).enabled = true ∧
    (∀ ls, m.last_synced = some ls →
      (update_project_settings m i (some true)).next_sync =
        some (ls + 60 * (update_project_settings m i (some true)).sync_interval_minutes)) ∧
    (m.last_synced = none →
      (update_project_settings m i (some true)).next_sync = m.next_sync) := by
  rcases i with _ | i <;>
    cases hls : m.last_synced <;>
      simp [update_project_settings, hls]

/-- Witness for C9 amended: re-enabling a record synced at time 3
reschedules it to `3 + 60 * interval` and resets the retry count. -/
theorem C9_update_reenable_witness :
    (update_project_settings upToDateRecord none (some true)).retry_count = 0 ∧
    (update_project_settings upToDateRecord none (some true)).enabled = true ∧
    (update_project_settings upToDateRecord none (some true)).next_sync =
      some (3 + 60 * (update_project_settings upToDateRecord none (some true)).sync_interval_minutes) :=
  have h := C9_update_reenable upToDateRecord none
  ⟨h.1, h.2.1, h.2.2.1 3 rfl⟩

/-- C10: the `add_project` upsert never clears a stored token: calling it
with `access_token = None` or the empty string leaves the stored token
unchanged, any call leaves the token set, and a nonempty token replaces
the stored one. -/
theorem C10_token_never_cleared (dflt : Nat) (ex : SyncMetadata)
    (url o r t : Str) (i : Option Nat) (en : Bool) (t0 : Str)
    (h : ex.access_token = some t0) :
    (add_project dflt (some ex) url o r t i none en).access_token = some t0 ∧
    (add_project dflt (some ex) url o r t i (some []) en).access_token = some t0 ∧
    (∀ tok, (add_project dflt (some ex) url o r t i tok en).access_token ≠ none) ∧
    (∀ tok, tok ≠ [] →
      (add_project dflt (some ex) url o r t i (some tok) en).access_token = some tok) := by
  refine ⟨h, by simp [add_project, h], ?_, ?_⟩
  · intro tok
    rcases tok with _ | tok
    · simp [add_project, h]
    · by_cases htok : tok = [] <;> simp [add_project, htok, h]
  · intro tok htok
    simp [add_project, htok]

/-- Witness for C10: the stored token `sec99` survives upserts with no
token and with an empty token, and a nonempty token replaces it. -/
theorem C10_token_never_cleared_witness :
    (add_project 60 (some secTokenRecord) (str "u") (str "alice") (str "repo")
        (str "github") none none true).access_token = some (str "sec99") ∧
    (add_project 60 (some secTokenRecord) (str "u") (str "alice") (str "repo")
        (str "github") none (some []) true).access_token = some (str "sec99") ∧
    (add_project 60 (some secTokenRecord) (str "u") (str "alice") (str "repo")
        (str "github") none (some (str "n3w")) true).access_token = some (str "n3w") :=
  have h := C10_token_never_cleared 60 secTokenRecord (str "u") (str "alice")
    (str "repo") (str "github") none true (str "sec99") rfl
  ⟨h.1, h.2.1, h.2.2.2 (str "n3w") (by decide)⟩
